import Mathlib

/-!
Verification of the chat-session engine of the `soul` repository.

The definitions below are a shallow embedding of the Python source:

* `calculate_chat_duration_minutes`, `calculate_chat_billing`,
  `deduct_chat_billing`, `calculate_and_deduct_chat_billing` embed
  `backend/api/utils/billing.py`;
* `accrue_step` embeds the per-chat loop body of
  `backend/api/management/commands/process_chat_billing.py` (`Command.handle`,
  with the default `min_duration = 1` and without `--check-only`);
* `save_message` (with its stages) embeds `ChatConsumer.save_message` of
  `backend/api/consumers.py`, and `ackFor` the acknowledgement decision of
  `ChatConsumer.receive`;
* `endSession` embeds `SessionEndView.post` of `backend/api/views.py`.

Timestamps are modelled as natural numbers (seconds on the timeline); a
Python comparison `a < now - timedelta(seconds = k)` is written additively
as `a + k < now`, which is the same relation on the timeline.  Money values
(Django `Decimal`s that are only ever integer multiples of the rate
`CHAT_RATE_PER_MINUTE = 1.00`, and the integer `wallet_minutes` field) are
modelled as `Int`; the Python `int(...)` truncations are the identity on
such values.
-/

namespace Soul

/-- Chat lifecycle status (`Chat.STATUS_*` in the source). -/
inductive ChatStatus
  | queued
  | active
  | inactive
  | completed
  | cancelled
deriving DecidableEq, Repr

/-- The fields of the `Chat` row that the embedded operations read or write.
`user` is the requester (the billed party), `counsellor` the assignee; both
are represented by their account ids. -/
structure ChatRec where
  user : Option Nat
  counsellor : Option Nat
  status : ChatStatus
  created_at : Option Nat
  started_at : Option Nat
  ended_at : Option Nat
  last_user_activity : Option Nat
  is_billed : Bool
  billed_amount : Int
  duration_minutes : Nat
  billing_processed_at : Option Nat
deriving DecidableEq, Repr

/-- The requester's wallet row (`UserProfile.wallet_minutes`). -/
structure Profile where
  wallet_minutes : Int
deriving DecidableEq, Repr

/-- Balance carried by an optional profile row (a missing row holds nothing;
the source creates it with `wallet_minutes = 0` when needed). -/
def walletOf (p : Option Profile) : Int :=
  (p.map Profile.wallet_minutes).getD 0

/-- Embedding of `calculate_chat_duration_minutes` (billing.py:18-49):
0 when the chat never started; 0 when the end time is not after the start;
otherwise the elapsed seconds rounded up to minutes.  The final
minimum-1-minute adjustment of the source is kept verbatim (it can only
trigger when the rounded value is 0). -/
def calculate_chat_duration_minutes (now : Nat) (c : ChatRec) : Nat :=
  match c.started_at with
  | none => 0
  | some s =>
    let e := c.ended_at.getD now
    if e ≤ s then 0
    else
      let m := (e - s + 59) / 60
      if m = 0 ∧ c.ended_at.isSome then 1 else m

/-- Embedding of `calculate_chat_billing` (billing.py:52-67): duration times
the fixed rate of 1 unit per minute. -/
def calculate_chat_billing (now : Nat) (c : ChatRec) : Int :=
  (calculate_chat_duration_minutes now c : Int) * 1

/-- Embedding of `deduct_chat_billing` (billing.py:70-135): fails when the
chat has no user; succeeds without touching the wallet when the amount is
not positive; otherwise gets-or-creates the profile (created rows start at
balance 0 and are persisted even when the debit then fails), refuses the
debit when the balance is below the amount, and subtracts it otherwise. -/
def deduct_chat_billing (c : ChatRec) (billing_amount : Int) (p : Option Profile) :
    Bool × Option Profile :=
  match c.user with
  | none => (false, p)
  | some _ =>
    if billing_amount ≤ 0 then (true, p)
    else
      let prof := p.getD ⟨0⟩
      if prof.wallet_minutes < billing_amount then (false, some prof)
      else (true, some ⟨prof.wallet_minutes - billing_amount⟩)

/-- The `ended_at` defaulting step of `calculate_and_deduct_chat_billing`
(billing.py:173-179): a chat reaching settlement without `ended_at` gets it
set to the current time. -/
def ensureEnded (now : Nat) (c : ChatRec) : ChatRec :=
  if c.ended_at = none then { c with ended_at := some now } else c

/-- Embedding of `calculate_and_deduct_chat_billing` (billing.py:138-238):
skip when already billed; mark never-started chats as billed at zero; ensure
`ended_at`; compute the full duration and amount; attempt the wallet debit of
the full amount; persist the billing fields, marking `is_billed` only on
success. -/
def calculate_and_deduct_chat_billing (now : Nat) (c : ChatRec) (p : Option Profile) :
    Bool × ChatRec × Option Profile :=
  if c.is_billed then (true, c, p)
  else if c.started_at = none then
    (true, { c with is_billed := true, billing_processed_at := some now,
                    duration_minutes := 0, billed_amount := 0 }, p)
  else
    let c1 := ensureEnded now c
    let d := calculate_chat_duration_minutes now c1
    let amount := calculate_chat_billing now c1
    let r := if 0 < amount then deduct_chat_billing c1 amount p else (true, p)
    if r.1 then
      (true, { c1 with duration_minutes := d, billed_amount := amount,
                       is_billed := true, billing_processed_at := some now }, r.2)
    else
      (false, { c1 with duration_minutes := d, billed_amount := amount }, r.2)

/-- Embedding of the loop body of `process_chat_billing.py` (`Command.handle`,
lines 52-111) for one chat, with the default `min_duration = 1` and actual
deduction enabled: only `active` chats with `started_at` set are in the
queryset; the incremental delta over `billed_amount` is debited exactly when
the balance suffices, and the chat's `billed_amount`/`duration_minutes` are
advanced without marking `is_billed`. -/
def accrue_step (now : Nat) (c : ChatRec) (p : Option Profile) :
    ChatRec × Option Profile :=
  if ¬(c.status = .active ∧ c.started_at.isSome) then (c, p)
  else if calculate_chat_duration_minutes now c < 1 then (c, p)
  else if 0 < calculate_chat_billing now c - c.billed_amount then
    match p with
    | none => (c, none)
    | some prof =>
      if calculate_chat_billing now c - c.billed_amount ≤ prof.wallet_minutes then
        ({ c with billed_amount := calculate_chat_billing now c,
                  duration_minutes := calculate_chat_duration_minutes now c },
         some ⟨prof.wallet_minutes - (calculate_chat_billing now c - c.billed_amount)⟩)
      else (c, some prof)
  else (c, p)

/-- One row of the `ChatMessage` table (the fields `save_message` reads). -/
structure MsgRec where
  id : Nat
  sender : Nat
  text : String
  created_at : Nat
  client_message_id : Option String
deriving DecidableEq, Repr

/-- The persistent state that one `ChatConsumer.save_message` call can touch:
the chat row (as stored in the database), its message log, the pool of
counsellor-capable accounts (`User.objects.filter(counsellorprofile__isnull=False)`,
in query order), and the next message primary key. -/
structure ChatState where
  chat : ChatRec
  messages : List MsgRec
  counselors : List Nat
  nextMsgId : Nat
deriving DecidableEq, Repr

/-- Python truthiness of the optional `client_message_id` string
(`if client_message_id:`): present and non-empty. -/
def truthy : Option String → Bool
  | none => false
  | some s => decide (s ≠ "")

/-- The deduplication decision of `save_message` (consumers.py:360-389):
with a truthy `client_message_id`, an existing row with the same
(sender, client_message_id) is a duplicate; otherwise a row from the same
sender with identical text created within the last 2 seconds is. -/
def dupCheck (now sender : Nat) (text : String) (cmid : Option String)
    (st : ChatState) : Bool :=
  if truthy cmid then
    decide (∃ m ∈ st.messages, m.sender = sender ∧ m.client_message_id = cmid)
  else
    decide (∃ m ∈ st.messages, m.sender = sender ∧ m.text = text ∧
      now ≤ m.created_at + 2)

/-- Stage of `save_message` at consumers.py:403-419: after
`last_user_activity` has been set to `now`, a requester who had previous
activity more than 5 minutes old while the chat is active/inactive is logged,
and an `inactive` chat is flipped back to `active` with `ended_at` cleared
(on the in-memory object only; no save happens in this stage). -/
def reactivateIfReturned (now : Nat) (previous : Option Nat) (mem : ChatRec) :
    ChatRec :=
  match previous with
  | none => mem
  | some p =>
    if (mem.status = .active ∨ mem.status = .inactive) ∧ p + 300 < now then
      if mem.status = .inactive then { mem with status := .active, ended_at := none }
      else mem
    else mem

/-- Stage of `save_message` at consumers.py:421-439 (the 1-hour
auto-disconnect).  Note that the source tests `chat.last_user_activity`,
which the same call just overwrote with `now` (line 401), not the pre-update
value; the stage is kept verbatim.  Returns the in-memory row and the
database row (the branch saves `status`, `ended_at`, `started_at`,
`last_user_activity`).  The `Chat` model class (models.py) is not part of
the source tree, so its `save()` is modelled as plain field persistence; this
branch is unreachable anyway because `mem.last_user_activity = now` here. -/
def autoDisconnect (now : Nat) (mem db : ChatRec) : ChatRec × ChatRec :=
  match mem.last_user_activity with
  | none => (mem, db)
  | some a =>
    if mem.status = .active ∧ a + 3600 < now then
      let m : ChatRec :=
        { mem with status := .completed,
                   ended_at := some (mem.ended_at.getD now),
                   started_at := some (mem.started_at.getD (mem.created_at.getD now)) }
      (m, { db with status := m.status, ended_at := m.ended_at,
                    started_at := m.started_at,
                    last_user_activity := m.last_user_activity })
    else (mem, db)

/-- Stage of `save_message` at consumers.py:441-510: a requester message on a
`queued`/`completed`/`inactive`/`cancelled` chat activates it.  From `queued`
with no counsellor the first available counsellor is auto-assigned and
`started_at` is set if unset; the save persists `status`, `ended_at`,
`last_user_activity`, plus `counsellor` and `started_at` when entering from
`queued` with those fields populated.  Returns (memory row, database row,
`chat_was_activated`). -/
def activateForUser (now : Nat) (mem db : ChatRec) (counselors : List Nat) :
    ChatRec × ChatRec × Bool :=
  if mem.status = .queued ∨ mem.status = .completed ∨
     mem.status = .inactive ∨ mem.status = .cancelled then
    let old := mem.status
    let mem1 :=
      if old = .queued ∧ mem.counsellor = none then
        match counselors with
        | c :: _ => { mem with counsellor := some c }
        | [] => mem
      else mem
    let mem2 :=
      if old = .queued ∧ mem1.started_at = none then
        { mem1 with started_at := some now }
      else mem1
    let mem3 := { mem2 with status := ChatStatus.active, ended_at := none }
    let db1 := { db with status := ChatStatus.active, ended_at := none,
                         last_user_activity := mem3.last_user_activity }
    let db2 :=
      if old = .queued ∧ mem3.counsellor.isSome then
        { db1 with counsellor := mem3.counsellor }
      else db1
    let db3 :=
      if old = .queued ∧ mem3.started_at.isSome then
        { db2 with started_at := mem3.started_at }
      else db2
    (mem3, db3, true)
  else (mem, db, false)

/-- Stage of `save_message` at consumers.py:541-569 (counsellor sender): a
counsellor message never activates the chat; an `active` chat whose requester
has been silent for more than 5 minutes is marked `inactive` with
`ended_at = last_user_activity + 5 min` if unset and `started_at` ensured;
the save persists exactly those three fields, so memory and database agree. -/
def counsellorInactivate (now : Nat) (chat : ChatRec) : ChatRec :=
  match chat.last_user_activity with
  | none => chat
  | some a =>
    if chat.status = .active ∧ a + 300 < now then
      { chat with status := .inactive,
                  ended_at := some (chat.ended_at.getD (a + 300)),
                  started_at := some (chat.started_at.getD (chat.created_at.getD now)) }
    else chat

/-- The status-transition core of `save_message` (consumers.py:391-569),
run after the duplicate checks.  Returns the chat row as persisted in the
database together with the `chat_was_activated` flag.  The initial database
row is the freshly locked `chat`; in-memory mutations reach the database only
through the explicit `save(update_fields=...)` calls modelled in the stages. -/
def applyStatusLogic (now sender : Nat) (chat : ChatRec) (counselors : List Nat) :
    ChatRec × Bool :=
  if chat.user = some sender then
    let mem0 := { chat with last_user_activity := some now }
    let mem1 := reactivateIfReturned now chat.last_user_activity mem0
    let p := autoDisconnect now mem1 chat
    let q := activateForUser now p.1 p.2 counselors
    (q.2.1, q.2.2)
  else
    (counsellorInactivate now chat, false)

/-- Embedding of `ChatConsumer.save_message` (consumers.py:346-602): inside
the row lock, run the duplicate checks (returning `none` with the state
untouched on a duplicate), then the status logic, then append the new message
row.  The result is the saved message id with the activation flag, plus the
resulting persistent state. -/
def save_message (now sender : Nat) (text : String) (cmid : Option String)
    (st : ChatState) : Option (Nat × Bool) × ChatState :=
  if dupCheck now sender text cmid st then (none, st)
  else
    let r := applyStatusLogic now sender st.chat st.counselors
    let msg : MsgRec := ⟨st.nextMsgId, sender, text, now, cmid⟩
    (some (st.nextMsgId, r.2), ⟨r.1, st.messages ++ [msg], st.counselors, st.nextMsgId + 1⟩)

/-- The acknowledgement frame `ChatConsumer.receive` sends back to the sender
(consumers.py:127-196). -/
structure Ack where
  status : String
  client_message_id : Option String
  message_id : Option Nat
deriving DecidableEq, Repr

/-- Acknowledgement decision of `ChatConsumer.receive`: a duplicate always
gets an ack with `message_id = null`; a saved message gets a "sent" ack only
when a `client_message_id` accompanied it. -/
def ackFor (cmid : Option String) (result : Option (Nat × Bool)) : Option Ack :=
  match result with
  | none => some ⟨"duplicate", cmid, none⟩
  | some (i, _) => if truthy cmid then some ⟨"sent", cmid, some i⟩ else none

/-- The fields of the `UpcomingSession` row that `SessionEndView.post`
reads or writes. -/
structure USession where
  user : Option Nat
  counsellor : Option Nat
  session_status : String
  actual_start_time : Option Nat
  actual_end_time : Option Nat
  is_confirmed : Bool
deriving DecidableEq, Repr

/-- Modelled from the spec: the `UpcomingSession` model class (models.py) is
not in the source tree, so its `duration_seconds` property is modelled as the
elapsed seconds between the actual start and end times (0 when either is
missing), matching the spec's elapsed-window reading; only the fact that it
is a pure function of the stored session fields matters below. -/
def durationSeconds (s : USession) : Nat :=
  match s.actual_start_time, s.actual_end_time with
  | some a, some b => b - a
  | _, _ => 0

/-- The outcomes `SessionEndView.post` can produce. -/
inductive EndResponse
  | alreadyEnded (endTime : Nat) (durSec : Nat)
  | endedSession (endTime : Nat) (billing : Option (Int × Nat))
  | endedChat (endTime : Nat) (billing : Option (Int × Nat))
  | errNoCounsellor
  | errCannotEnd (s : ChatStatus)
  | errNotFound
  | errAccessDenied
deriving DecidableEq, Repr

/-- The persistent state one `SessionEndView.post` call can touch:
`upcoming` is the `UpcomingSession` found by the view's lookup (by id with
the access filter, or via the chat's (user, counsellor) pair), `none` when no
such row exists. -/
structure EndState where
  upcoming : Option USession
  chat : Option ChatRec
  profile : Option Profile
deriving DecidableEq, Repr

/-- The billing block of the session branch of `SessionEndView.post`
(views.py:1343-1408): when the ended session has both parties and an
associated `active`/`inactive` chat that is unbilled and started, the chat is
closed (`completed`, `ended_at` defaulted to `now`) and settlement is run;
`Chat.save()` (models.py, absent from the source tree) is modelled as plain
persistence, with settlement performed by the view's explicit
`calculate_and_deduct_chat_billing` fallback at views.py:1369-1391, which the
source runs exactly when `save()` did not already bill ( settlement skips
already-billed chats, so the net state is the same either way).  Returns the
`billing_info` of the response plus the resulting chat/profile rows. -/
def sessionEndBilling (now : Nat) (s : USession) (chat? : Option ChatRec)
    (p : Option Profile) : Option (Int × Nat) × Option ChatRec × Option Profile :=
  if s.user.isSome ∧ s.counsellor.isSome then
    match chat? with
    | none => (none, none, p)
    | some c =>
      if (c.user = s.user ∧ c.counsellor = s.counsellor) ∧
         (c.status = .active ∨ c.status = .inactive) then
        if c.is_billed = false ∧ c.started_at.isSome then
          let c1 :=
            if c.status ≠ .completed then
              { c with status := ChatStatus.completed,
                       ended_at := some (c.ended_at.getD now) }
            else c
          let r :=
            if c1.is_billed = false ∧ c1.started_at.isSome ∧ c1.ended_at.isSome then
              calculate_and_deduct_chat_billing now c1 p
            else (true, c1, p)
          (if r.2.1.is_billed then some (r.2.1.billed_amount, r.2.1.duration_minutes)
           else none, some r.2.1, r.2.2)
        else (none, some c, p)
      else (none, some c, p)
  else (none, chat?, p)

/-- Embedding of `SessionEndView.post` (views.py:1047-1448).  When an
`UpcomingSession` was found: an already-completed session is returned as-is
(`already_ended`, views.py:1310-1322); otherwise it is completed with
`actual_end_time = now`, `actual_start_time` defaulted, and the chat billing
block runs.  When only a chat was found: access is checked
(views.py:1095-1104), a counsellor-less chat is rejected (views.py:1152-1159),
an `active`/`inactive` chat is ended and settled directly
(views.py:1162-1220), and any other status yields the cannot-be-ended error
(views.py:1222-1229).  The session lookup's `notes` bookkeeping has no
observable effect on the modelled fields and is omitted. -/
def endSession (now actor : Nat) (st : EndState) : EndResponse × EndState :=
  match st.upcoming with
  | some s =>
    if s.actual_end_time.isSome ∧ s.session_status = "completed" then
      (.alreadyEnded (s.actual_end_time.getD 0) (durationSeconds s), st)
    else
      let s1 : USession :=
        { s with actual_end_time := some now, session_status := "completed",
                 is_confirmed := false,
                 actual_start_time := some (s.actual_start_time.getD now) }
      let b := sessionEndBilling now s1 st.chat st.profile
      (.endedSession now b.1, ⟨some s1, b.2.1, b.2.2⟩)
  | none =>
    match st.chat with
    | none => (.errNotFound, st)
    | some c =>
      if ¬(c.user = some actor ∨ (c.counsellor.isSome ∧ c.counsellor = some actor)) then
        (.errAccessDenied, st)
      else if c.counsellor = none then (.errNoCounsellor, st)
      else if c.status = .active ∨ c.status = .inactive then
        let c1 : ChatRec :=
          { c with status := ChatStatus.completed,
                   ended_at := some (c.ended_at.getD now),
                   started_at := some (c.started_at.getD now) }
        let r :=
          if c1.is_billed = false then calculate_and_deduct_chat_billing now c1 st.profile
          else (true, c1, st.profile)
        let billing :=
          if r.2.1.is_billed then some (r.2.1.billed_amount, r.2.1.duration_minutes)
          else none
        (.endedChat (r.2.1.ended_at.getD 0) billing, ⟨none, some r.2.1, r.2.2⟩)
      else (.errCannotEnd c.status, st)

/-- The call is not classified as a duplicate by `save_message`'s checks. -/
def notDuplicate (now sender : Nat) (text : String) (cmid : Option String)
    (st : ChatState) : Prop :=
  dupCheck now sender text cmid st = false

/-- The message log holds at most one row per (sender, client_message_id)
for truthy (present, non-empty) idempotency keys. -/
def noDupKey (l : List MsgRec) : Prop :=
  l.Pairwise (fun a b => a.sender = b.sender →
    a.client_message_id = b.client_message_id →
    a.client_message_id = none ∨ a.client_message_id = some "")

section HelperLemmas

lemma walletOf_getD (p : Option Profile) :
    (p.getD ⟨0⟩).wallet_minutes = walletOf p := by
  cases p <;> rfl

lemma deduct_of_no_user (c : ChatRec) (a : Int) (p : Option Profile)
    (h : c.user = none) : deduct_chat_billing c a p = (false, p) := by
  simp [deduct_chat_billing, h]

lemma deduct_of_nonpos (c : ChatRec) (a : Int) (p : Option Profile) (u : Nat)
    (hu : c.user = some u) (h : a ≤ 0) : deduct_chat_billing c a p = (true, p) := by
  simp [deduct_chat_billing, hu, h]

lemma deduct_of_insufficient (c : ChatRec) (a : Int) (p : Option Profile) (u : Nat)
    (hu : c.user = some u) (hpos : 0 < a) (hins : walletOf p < a) :
    deduct_chat_billing c a p = (false, some ⟨walletOf p⟩) := by
  have hw := walletOf_getD p
  simp only [deduct_chat_billing, hu]
  rw [if_neg (by omega), if_pos (by omega)]
  rcases p with _ | ⟨w⟩ <;> simp_all [walletOf]

lemma deduct_of_sufficient (c : ChatRec) (a : Int) (p : Option Profile) (u : Nat)
    (hu : c.user = some u) (hpos : 0 < a) (hsuf : a ≤ walletOf p) :
    deduct_chat_billing c a p = (true, some ⟨walletOf p - a⟩) := by
  have hw := walletOf_getD p
  simp only [deduct_chat_billing, hu]
  rw [if_neg (by omega), if_neg (by omega)]
  rcases p with _ | ⟨w⟩ <;> simp_all [walletOf]

end HelperLemmas

/-- C10: settlement on a never-started, not-yet-billed chat debits nothing
and permanently marks it billed at zero. -/
theorem c10_never_started_billed_zero (now : Nat) (c : ChatRec) (p : Option Profile)
    (hb : c.is_billed = false) (hs : c.started_at = none) :
    calculate_and_deduct_chat_billing now c p =
      (true, { c with is_billed := true, billing_processed_at := some now,
                      duration_minutes := 0, billed_amount := 0 }, p) := by
  simp [calculate_and_deduct_chat_billing, hb, hs]

/-- C10 witness: a concrete never-started chat is marked billed at zero with
the wallet untouched. -/
theorem c10_never_started_billed_zero_witness :
    calculate_and_deduct_chat_billing 1000
      ⟨some 1, some 2, .cancelled, some 0, none, none, none, false, 0, 0, none⟩
      (some ⟨7⟩) =
    (true, ⟨some 1, some 2, .cancelled, some 0, none, none, none, true, 0, 0, some 1000⟩,
     some ⟨7⟩) :=
  c10_never_started_billed_zero 1000
    ⟨some 1, some 2, .cancelled, some 0, none, none, none, false, 0, 0, none⟩
    (some ⟨7⟩) rfl rfl

/-- C8: when the requester's balance is below the amount owed, settlement
charges nothing, leaves `is_billed` false, reports failure, and does not
touch the session's status (a `completed` session stays `completed`). -/
theorem c8_insufficient_balance (now : Nat) (c : ChatRec) (p : Option Profile)
    (u s : Nat) (hb : c.is_billed = false) (hs : c.started_at = some s)
    (hu : c.user = some u)
    (hpos : 0 < calculate_chat_billing now (ensureEnded now c))
    (hins : walletOf p < calculate_chat_billing now (ensureEnded now c)) :
    (calculate_and_deduct_chat_billing now c p).1 = false ∧
    (calculate_and_deduct_chat_billing now c p).2.1.is_billed = false ∧
    (calculate_and_deduct_chat_billing now c p).2.1.status = c.status ∧
    walletOf (calculate_and_deduct_chat_billing now c p).2.2 = walletOf p := by
  have hu1 : (ensureEnded now c).user = some u := by
    unfold ensureEnded; split <;> simp [hu]
  have hded := deduct_of_insufficient (ensureEnded now c)
    (calculate_chat_billing now (ensureEnded now c)) p u hu1 hpos hins
  have hst1 : (ensureEnded now c).status = c.status := by
    unfold ensureEnded; split <;> rfl
  have hib1 : (ensureEnded now c).is_billed = false := by
    unfold ensureEnded; split <;> simp [hb]
  simp only [calculate_and_deduct_chat_billing, hb, hs]
  rw [if_neg (by simp), if_neg (by simp)]
  rw [if_pos hpos, hded]
  simp [hib1, hst1, walletOf]

/-- C8 witness: balance 0, session closed `completed` with 3 minutes owed:
settlement fails, `is_billed` stays false, status stays `completed`, wallet
stays 0. -/
theorem c8_insufficient_balance_witness :
    (calculate_and_deduct_chat_billing 1000
      ⟨some 1, some 2, .completed, some 0, some 0, some 180, some 0, false, 0, 0, none⟩
      (some ⟨0⟩)).1 = false ∧
    (calculate_and_deduct_chat_billing 1000
      ⟨some 1, some 2, .completed, some 0, some 0, some 180, some 0, false, 0, 0, none⟩
      (some ⟨0⟩)).2.1.is_billed = false ∧
    (calculate_and_deduct_chat_billing 1000
      ⟨some 1, some 2, .completed, some 0, some 0, some 180, some 0, false, 0, 0, none⟩
      (some ⟨0⟩)).2.1.status = ChatStatus.completed ∧
    walletOf (calculate_and_deduct_chat_billing 1000
      ⟨some 1, some 2, .completed, some 0, some 0, some 180, some 0, false, 0, 0, none⟩
      (some ⟨0⟩)).2.2 = walletOf (some ⟨0⟩) := by
  have h := c8_insufficient_balance 1000
    ⟨some 1, some 2, .completed, some 0, some 0, some 180, some 0, false, 0, 0, none⟩
    (some ⟨0⟩) 1 0 rfl rfl rfl (by decide) (by decide)
  exact ⟨h.1, h.2.1, h.2.2.1, h.2.2.2⟩

/-- C9: neither the close-time wallet debit nor the periodic accrual debit
can drive a balance negative: any change they make is a debit of a positive
amount that the balance covered, and otherwise the balance is untouched. -/
theorem c9_wallet_never_negative (now : Nat) (c : ChatRec) (a : Int)
    (p : Option Profile) :
    (0 ≤ walletOf p → 0 ≤ walletOf (deduct_chat_billing c a p).2 ∧
      0 ≤ walletOf (accrue_step now c p).2) ∧
    (walletOf (deduct_chat_billing c a p).2 ≠ walletOf p →
      0 < a ∧ a ≤ walletOf p ∧
      walletOf (deduct_chat_billing c a p).2 = walletOf p - a) ∧
    (walletOf (accrue_step now c p).2 ≠ walletOf p →
      ∃ d, 0 < d ∧ d ≤ walletOf p ∧
        walletOf (accrue_step now c p).2 = walletOf p - d) := by
  have hded : walletOf (deduct_chat_billing c a p).2 = walletOf p ∨
      (0 < a ∧ a ≤ walletOf p ∧
       walletOf (deduct_chat_billing c a p).2 = walletOf p - a) := by
    cases hcu : c.user with
    | none => rw [deduct_of_no_user c a p hcu]; exact Or.inl rfl
    | some u =>
      rcases le_or_lt a 0 with hle | hpos
      · rw [deduct_of_nonpos c a p u hcu hle]; exact Or.inl rfl
      · rcases lt_or_le (walletOf p) a with hins | hsuf
        · rw [deduct_of_insufficient c a p u hcu hpos hins]
          exact Or.inl (by simp [walletOf])
        · rw [deduct_of_sufficient c a p u hcu hpos hsuf]
          exact Or.inr ⟨hpos, hsuf, by simp [walletOf]⟩
  have hacc : walletOf (accrue_step now c p).2 = walletOf p ∨
      (∃ d, 0 < d ∧ d ≤ walletOf p ∧
        walletOf (accrue_step now c p).2 = walletOf p - d) := by
    cases p with
    | none =>
      simp only [accrue_step]
      split_ifs <;> exact Or.inl rfl
    | some prof =>
      simp only [accrue_step]
      split_ifs with h1 h2 h3 h4
      all_goals try exact Or.inl rfl
      refine Or.inr ⟨calculate_chat_billing now c - c.billed_amount,
        by omega, ?_, ?_⟩
      · simp only [walletOf, Option.map_some', Option.getD_some]
        omega
      · simp [walletOf]
  refine ⟨fun hnn => ⟨?_, ?_⟩, fun hne => ?_, fun hne => ?_⟩
  · rcases hded with h | ⟨_, h2, h3⟩ <;> omega
  · rcases hacc with h | ⟨d, _, h2, h3⟩ <;> omega
  · rcases hded with h | h
    · exact absurd h hne
    · exact h
  · rcases hacc with h | h
    · exact absurd h hne
    · exact h

/-- C9 witness: a concrete debit and accrual step keep a balance of 10
non-negative. -/
theorem c9_wallet_never_negative_witness :
    0 ≤ walletOf (deduct_chat_billing
      ⟨some 1, some 2, .completed, some 0, some 0, some 180, some 0, false, 0, 0, none⟩
      3 (some ⟨10⟩)).2 ∧
    0 ≤ walletOf (accrue_step 600
      ⟨some 1, some 2, .active, some 0, some 0, none, some 0, false, 0, 0, none⟩
      (some ⟨10⟩)).2 :=
  ⟨((c9_wallet_never_negative 600
      ⟨some 1, some 2, .completed, some 0, some 0, some 180, some 0, false, 0, 0, none⟩
      3 (some ⟨10⟩)).1 (by decide)).1,
   ((c9_wallet_never_negative 600
      ⟨some 1, some 2, .active, some 0, some 0, none, some 0, false, 0, 0, none⟩
      3 (some ⟨10⟩)).1 (by decide)).2⟩

/-- C1: evaluation of `calculate_and_deduct_chat_billing` at the failing
input.  A 3-minute session of which 2 units were already charged by the
periodic accrual (`billed_amount = 2`) is settled: the code debits the full
recomputed amount 3 (wallet 10 to 7) instead of the incremental delta 1
(which would leave 9), so the accrued part of the window is deducted a second
time. -/
theorem c1_settlement_ignores_accrued_delta :
    calculate_and_deduct_chat_billing 1000
        ⟨some 1, some 2, .completed, some 0, some 0, some 180, some 0, false, 2, 0, none⟩
        (some ⟨10⟩) =
      (true,
       ⟨some 1, some 2, .completed, some 0, some 0, some 180, some 0, true, 3, 3, some 1000⟩,
       some ⟨7⟩) ∧
    (7 : Int) ≠ 10 - (3 - 2) := by
  exact ⟨by decide, by decide⟩

/-- C4 counterexample: a chat with both `started_at` and `ended_at` set but
equal gets duration 0, not the minimum 1 the claim's floor rule demands. -/
theorem c4_zero_length_floor_fails :
    (⟨some 1, some 2, .completed, some 0, some 100, some 100, some 0, false, 0, 0,
        none⟩ : ChatRec).started_at.isSome = true ∧
    (⟨some 1, some 2, .completed, some 0, some 100, some 100, some 0, false, 0, 0,
        none⟩ : ChatRec).ended_at.isSome = true ∧
    calculate_chat_duration_minutes 1000
      ⟨some 1, some 2, .completed, some 0, some 100, some 100, some 0, false, 0, 0,
        none⟩ = 0 := by
  exact ⟨rfl, rfl, by decide⟩

/-- C4 (amended): duration is 0 when the chat never started and 0 when the
end time is not after the start; when the end time is strictly later it is
the ceiling of the elapsed seconds over 60, which is then automatically at
least 1; in particular `started_at = T`, `ended_at = T + 30 s` yields 1
minute and amount 1 at the 1-unit-per-minute rate. -/
theorem c4_elapsed_minutes (now : Nat) (c : ChatRec) :
    (c.started_at = none → calculate_chat_duration_minutes now c = 0) ∧
    (∀ s, c.started_at = some s →
      (c.ended_at.getD now ≤ s → calculate_chat_duration_minutes now c = 0) ∧
      (s < c.ended_at.getD now →
        calculate_chat_duration_minutes now c = (c.ended_at.getD now - s + 59) / 60 ∧
        1 ≤ calculate_chat_duration_minutes now c)) ∧
    calculate_chat_duration_minutes 1000
      ⟨some 1, some 2, .completed, some 0, some 0, some 30, some 0, false, 0, 0, none⟩
      = 1 ∧
    calculate_chat_billing 1000
      ⟨some 1, some 2, .completed, some 0, some 0, some 30, some 0, false, 0, 0, none⟩
      = 1 := by
  refine ⟨?_, ?_, by decide, by decide⟩
  · intro h; simp [calculate_chat_duration_minutes, h]
  · intro s hs
    constructor
    · intro hle
      simp only [calculate_chat_duration_minutes, hs]
      rw [if_pos hle]
    · intro hlt
      have hone : 1 ≤ (c.ended_at.getD now - s + 59) / 60 := by omega
      simp only [calculate_chat_duration_minutes, hs]
      rw [if_neg (by omega), if_neg (fun h => by omega)]
      exact ⟨rfl, hone⟩

/-- C4 witness: the general clauses applied at `started_at = 0`,
`ended_at = 30`. -/
theorem c4_elapsed_minutes_witness :
    calculate_chat_duration_minutes 1000
      ⟨some 1, some 2, .completed, some 0, some 0, some 30, some 0, false, 0, 0, none⟩
      = (30 - 0 + 59) / 60 ∧
    1 ≤ calculate_chat_duration_minutes 1000
      ⟨some 1, some 2, .completed, some 0, some 0, some 30, some 0, false, 0, 0, none⟩ :=
  ((c4_elapsed_minutes 1000
      ⟨some 1, some 2, .completed, some 0, some 0, some 30, some 0, false, 0, 0, none⟩).2.1
    0 rfl).2 (by decide)

section SaveMessageLemmas

lemma save_message_not_dup (now sender : Nat) (text : String) (cmid : Option String)
    (st : ChatState) (h : notDuplicate now sender text cmid st) :
    save_message now sender text cmid st =
      (some (st.nextMsgId, (applyStatusLogic now sender st.chat st.counselors).2),
       ⟨(applyStatusLogic now sender st.chat st.counselors).1,
        st.messages ++ [⟨st.nextMsgId, sender, text, now, cmid⟩],
        st.counselors, st.nextMsgId + 1⟩) := by
  have h' : dupCheck now sender text cmid st = false := h
  simp [save_message, h']

lemma save_message_dup (now sender : Nat) (text : String) (cmid : Option String)
    (st : ChatState) (h : dupCheck now sender text cmid st = true) :
    save_message now sender text cmid st = (none, st) := by
  simp [save_message, h]

lemma applyStatusLogic_counsellor (now sender : Nat) (chat : ChatRec)
    (cs : List Nat) (h : chat.user ≠ some sender) :
    applyStatusLogic now sender chat cs = (counsellorInactivate now chat, false) := by
  simp [applyStatusLogic, h]

lemma reactivate_eq_of_blocked (now : Nat) (prev : Option Nat) (mem : ChatRec)
    (h : ∀ p, prev = some p →
      (mem.status = .active ∨ mem.status = .inactive) → ¬(p + 300 < now)) :
    reactivateIfReturned now prev mem = mem := by
  cases prev with
  | none => rfl
  | some p =>
    simp only [reactivateIfReturned]
    rw [if_neg]
    intro hcond
    exact h p rfl hcond.1 hcond.2

lemma autoDisconnect_eq_of_now (now : Nat) (mem db : ChatRec)
    (h : mem.last_user_activity = some now) :
    autoDisconnect now mem db = (mem, db) := by
  simp only [autoDisconnect, h]
  rw [if_neg]
  intro hcond
  omega

lemma activateForUser_fields (now : Nat) (mem db : ChatRec) (cs : List Nat)
    (h : mem.status = .queued ∨ mem.status = .completed ∨
         mem.status = .inactive ∨ mem.status = .cancelled) :
    (activateForUser now mem db cs).2.2 = true ∧
    (activateForUser now mem db cs).2.1.status = .active ∧
    (activateForUser now mem db cs).2.1.ended_at = none := by
  simp only [activateForUser]
  rw [if_pos h]
  cases cs <;> split_ifs <;> simp_all

lemma activateForUser_queued_assign (now : Nat) (mem db : ChatRec) (cs : List Nat)
    (hq : mem.status = .queued) (hc : mem.counsellor = none)
    (hdb : db.counsellor = none) :
    (activateForUser now mem db cs).2.1.counsellor = cs.head? := by
  simp only [activateForUser]
  rw [if_pos (Or.inl hq)]
  cases cs <;> split_ifs <;> simp_all

lemma activateForUser_queued_started (now : Nat) (mem db : ChatRec) (cs : List Nat)
    (hq : mem.status = .queued) (hs : mem.started_at = none) :
    (activateForUser now mem db cs).2.1.started_at = some now := by
  simp only [activateForUser]
  rw [if_pos (Or.inl hq)]
  cases cs <;> split_ifs <;> simp_all

end SaveMessageLemmas

/-- C2: evaluation of `save_message` at the failing input.  An `active` chat
whose requester was last active 3700 seconds (over 61 minutes) ago receives a
requester message: the chat row is completely unchanged (status stays
`active`, nothing is billed) and only the message is appended — the
1-hour auto-close branch can never fire because it tests
`last_user_activity` after the same call has just set it to `now`. -/
theorem c2_auto_close_never_fires :
    (save_message 3700 1 "hello" none
      ⟨⟨some 1, some 2, .active, some 0, some 0, none, some 0, false, 0, 0, none⟩,
       [], [2], 0⟩).1 = some (0, false) ∧
    (save_message 3700 1 "hello" none
      ⟨⟨some 1, some 2, .active, some 0, some 0, none, some 0, false, 0, 0, none⟩,
       [], [2], 0⟩).2.chat =
      ⟨some 1, some 2, .active, some 0, some 0, none, some 0, false, 0, 0, none⟩ ∧
    (save_message 3700 1 "hello" none
      ⟨⟨some 1, some 2, .active, some 0, some 0, none, some 0, false, 0, 0, none⟩,
       [], [2], 0⟩).2.messages = [⟨0, 1, "hello", 3700, none⟩] := by
  exact ⟨by decide, by decide, by decide⟩

/-- C5: a resubmission with an already-used (non-empty) `client_message_id`
from the same sender is a no-op: the call returns the duplicate outcome, the
acknowledgement carries `message_id = null`, and the entire state (message
log and chat row) is unchanged; moreover any `save_message` call preserves
the at-most-one-message-per-key invariant. -/
theorem c5_duplicate_submission_noop (now now' sender sender' : Nat)
    (text text' k : String) (cmid' : Option String) (st : ChatState) :
    (k ≠ "" →
      (∃ m ∈ st.messages, m.sender = sender ∧ m.client_message_id = some k) →
      save_message now sender text (some k) st = (none, st) ∧
      ackFor (some k) (save_message now sender text (some k) st).1 =
        some ⟨"duplicate", some k, none⟩) ∧
    (noDupKey st.messages →
      noDupKey (save_message now' sender' text' cmid' st).2.messages) := by
  constructor
  · intro hk hdup
    have ht : truthy (some k) = true := by simp [truthy, hk]
    have hd : dupCheck now sender text (some k) st = true := by
      simp only [dupCheck, ht, if_pos]
      exact decide_eq_true hdup
    have hs := save_message_dup now sender text (some k) st hd
    rw [hs]
    exact ⟨rfl, rfl⟩
  · intro hinv
    cases hd : dupCheck now' sender' text' cmid' st with
    | true => rw [save_message_dup now' sender' text' cmid' st hd]; exact hinv
    | false =>
      rw [save_message_not_dup now' sender' text' cmid' st hd]
      refine List.pairwise_append.mpr ⟨hinv, List.pairwise_singleton _ _, ?_⟩
      intro a ha b hb
      simp only [List.mem_singleton] at hb
      subst hb
      intro hsend hkey
      cases hcm : cmid' with
      | none => exact Or.inl (by rw [hkey, hcm])
      | some kk =>
        by_cases hkk : kk = ""
        · exact Or.inr (by rw [hkey, hcm, hkk])
        · exfalso
          have ht : truthy cmid' = true := by simp [truthy, hcm, hkk]
          have : decide (∃ m ∈ st.messages, m.sender = sender' ∧
              m.client_message_id = cmid') = false := by
            simpa only [dupCheck, ht, if_pos] using hd
          have hne := of_decide_eq_false this
          exact hne ⟨a, ha, hsend, hkey⟩

/-- C5 witness: the theorem applied to a one-message log and the key "c1". -/
theorem c5_duplicate_submission_noop_witness :
    save_message 11 1 "hello" (some "c1")
      ⟨⟨some 1, some 2, .active, some 0, some 0, none, some 0, false, 0, 0, none⟩,
       [⟨0, 1, "hello", 10, some "c1"⟩], [2], 1⟩ =
      (none,
       ⟨⟨some 1, some 2, .active, some 0, some 0, none, some 0, false, 0, 0, none⟩,
        [⟨0, 1, "hello", 10, some "c1"⟩], [2], 1⟩) ∧
    noDupKey (save_message 11 1 "x" none
      ⟨⟨some 1, some 2, .active, some 0, some 0, none, some 0, false, 0, 0, none⟩,
       [⟨0, 1, "hello", 10, some "c1"⟩], [2], 1⟩).2.messages := by
  have h := c5_duplicate_submission_noop 11 11 1 1 "hello" "x" "c1" none
    ⟨⟨some 1, some 2, .active, some 0, some 0, none, some 0, false, 0, 0, none⟩,
     [⟨0, 1, "hello", 10, some "c1"⟩], [2], 1⟩
  exact ⟨(h.1 (by decide) ⟨⟨0, 1, "hello", 10, some "c1"⟩, by simp, rfl, rfl⟩).1,
         h.2 (List.pairwise_singleton _ _)⟩

/-- C6: an assignee (counsellor) message never makes the session `active`;
and on a non-duplicate assignee message to an `active` session whose
requester has been silent for more than 5 minutes, the session becomes
`inactive` with `ended_at = last_requester_activity + 5 min` when it was
unset (and left at its previous value otherwise). -/
theorem c6_assignee_message (now sender : Nat) (text : String)
    (cmid : Option String) (st : ChatState)
    (hnr : st.chat.user ≠ some sender) :
    ((save_message now sender text cmid st).2.chat.status = .active →
      st.chat.status = .active) ∧
    (∀ a, notDuplicate now sender text cmid st →
      st.chat.status = .active → st.chat.last_user_activity = some a →
      a + 300 < now →
      (save_message now sender text cmid st).2.chat.status = .inactive ∧
      (save_message now sender text cmid st).2.chat.ended_at =
        some (st.chat.ended_at.getD (a + 300)) ∧
      (st.chat.ended_at = none →
        (save_message now sender text cmid st).2.chat.ended_at = some (a + 300))) := by
  constructor
  · intro hact
    cases hd : dupCheck now sender text cmid st with
    | true =>
      rw [save_message_dup now sender text cmid st hd] at hact
      exact hact
    | false =>
      rw [save_message_not_dup now sender text cmid st hd,
        applyStatusLogic_counsellor now sender st.chat st.counselors hnr] at hact
      cases hl : st.chat.last_user_activity with
      | none =>
        simp only [counsellorInactivate, hl] at hact
        exact hact
      | some a =>
        simp only [counsellorInactivate, hl] at hact
        by_cases h : st.chat.status = ChatStatus.active ∧ a + 300 < now
        · exact h.1
        · rw [if_neg h] at hact
          exact hact
  · intro a hnd hact hlast hlt
    rw [save_message_not_dup now sender text cmid st hnd,
      applyStatusLogic_counsellor now sender st.chat st.counselors hnr]
    simp only [counsellorInactivate, hlast]
    rw [if_pos ⟨hact, hlt⟩]
    refine ⟨rfl, rfl, fun hend => ?_⟩
    rw [hend]
    rfl

/-- C6 witness: a counsellor message at `now = 360` to an active chat whose
requester was last active at 0 and whose `ended_at` is unset: the chat
becomes `inactive` with `ended_at = 300`. -/
theorem c6_assignee_message_witness :
    (save_message 360 2 "there?" none
      ⟨⟨some 1, some 2, .active, some 0, some 0, none, some 0, false, 0, 0, none⟩,
       [], [2], 0⟩).2.chat.status = ChatStatus.inactive ∧
    (save_message 360 2 "there?" none
      ⟨⟨some 1, some 2, .active, some 0, some 0, none, some 0, false, 0, 0, none⟩,
       [], [2], 0⟩).2.chat.ended_at = some (0 + 300) := by
  have h := (c6_assignee_message 360 2 "there?" none
    ⟨⟨some 1, some 2, .active, some 0, some 0, none, some 0, false, 0, 0, none⟩,
     [], [2], 0⟩ (by decide)).2 0 rfl rfl rfl (by decide)
  exact ⟨h.1, h.2.2 rfl⟩

/-- C7 counterexample: a requester message to an `inactive` session whose
previous requester activity is more than 5 minutes old does NOT activate it:
the call returns `activated = false` and the persisted status stays
`inactive` (the in-memory reactivation at consumers.py:416-419 is never
saved, and the activation branch is skipped because the in-memory status is
already `active`). -/
theorem c7_stale_inactive_not_activated :
    (save_message 400 1 "hi" none
      ⟨⟨some 1, some 2, .inactive, some 0, some 0, some 350, some 0, false, 0, 0, none⟩,
       [], [2], 0⟩).1 = some (0, false) ∧
    (save_message 400 1 "hi" none
      ⟨⟨some 1, some 2, .inactive, some 0, some 0, some 350, some 0, false, 0, 0, none⟩,
       [], [2], 0⟩).2.chat.status = ChatStatus.inactive := by
  exact ⟨by decide, by decide⟩

/-- C7 (amended): a non-duplicate requester message to a session in
queued/completed/inactive/cancelled activates it — status `active`,
`ended_at` cleared, `activated = true`, auto-assignment of the first
available counsellor when entering from `queued` with none assigned, and
`started_at` defaulted to now when entering from `queued` with it unset —
except when the status is `inactive` and the requester's previous activity
is more than 5 minutes old, in which case the reactivation happens only on
the in-memory object and the call reports `activated = false`. -/
theorem c7_requester_activation (now sender : Nat) (text : String)
    (cmid : Option String) (st : ChatState)
    (hu : st.chat.user = some sender)
    (hnd : notDuplicate now sender text cmid st)
    (hst : st.chat.status = .queued ∨ st.chat.status = .completed ∨
           st.chat.status = .inactive ∨ st.chat.status = .cancelled)
    (hnot : ¬(st.chat.status = .inactive ∧
              ∃ p, st.chat.last_user_activity = some p ∧ p + 300 < now)) :
    (save_message now sender text cmid st).1 = some (st.nextMsgId, true) ∧
    (save_message now sender text cmid st).2.chat.status = .active ∧
    (save_message now sender text cmid st).2.chat.ended_at = none ∧
    (st.chat.status = .queued → st.chat.counsellor = none →
      (save_message now sender text cmid st).2.chat.counsellor =
        st.counselors.head?) ∧
    (st.chat.status = .queued → st.chat.started_at = none →
      (save_message now sender text cmid st).2.chat.started_at = some now) := by
  have hmem1 : reactivateIfReturned now st.chat.last_user_activity
      { st.chat with last_user_activity := some now } =
      { st.chat with last_user_activity := some now } := by
    apply reactivate_eq_of_blocked
    intro p hp hstatus hlt
    rcases hstatus with h | h
    · rcases hst with h4 | h4 | h4 | h4 <;> simp_all
    · exact hnot ⟨by simpa using h, p, hp, hlt⟩
  have hauto : autoDisconnect now
      { st.chat with last_user_activity := some now } st.chat =
      ({ st.chat with last_user_activity := some now }, st.chat) :=
    autoDisconnect_eq_of_now now _ st.chat rfl
  have happ : applyStatusLogic now sender st.chat st.counselors =
      ((activateForUser now { st.chat with last_user_activity := some now }
          st.chat st.counselors).2.1,
       (activateForUser now { st.chat with last_user_activity := some now }
          st.chat st.counselors).2.2) := by
    simp only [applyStatusLogic]
    rw [if_pos hu, hmem1, hauto]
  have hst' : ({ st.chat with last_user_activity := some now } : ChatRec).status
      = .queued ∨
      ({ st.chat with last_user_activity := some now } : ChatRec).status
      = .completed ∨
      ({ st.chat with last_user_activity := some now } : ChatRec).status
      = .inactive ∨
      ({ st.chat with last_user_activity := some now } : ChatRec).status
      = .cancelled := by simpa using hst
  have hf := activateForUser_fields now
    { st.chat with last_user_activity := some now } st.chat st.counselors hst'
  rw [save_message_not_dup now sender text cmid st hnd, happ]
  refine ⟨by simp [hf.1], by simp [hf.2.1], by simp [hf.2.2], ?_, ?_⟩
  · intro hq hc
    have := activateForUser_queued_assign now
      { st.chat with last_user_activity := some now } st.chat st.counselors
      (by simpa using hq) (by simpa using hc) hc
    simpa using this
  · intro hq hs
    have := activateForUser_queued_started now
      { st.chat with last_user_activity := some now } st.chat st.counselors
      (by simpa using hq) (by simpa using hs)
    simpa using this

/-- C7 witness: a requester message to a queued chat with no counsellor
activates it, auto-assigns counsellor 2, and sets `started_at`. -/
theorem c7_requester_activation_witness :
    (save_message 50 1 "hello" none
      ⟨⟨some 1, none, .queued, some 0, none, none, none, false, 0, 0, none⟩,
       [], [2], 0⟩).1 = some (0, true) ∧
    (save_message 50 1 "hello" none
      ⟨⟨some 1, none, .queued, some 0, none, none, none, false, 0, 0, none⟩,
       [], [2], 0⟩).2.chat.status = ChatStatus.active ∧
    (save_message 50 1 "hello" none
      ⟨⟨some 1, none, .queued, some 0, none, none, none, false, 0, 0, none⟩,
       [], [2], 0⟩).2.chat.counsellor = [2].head? ∧
    (save_message 50 1 "hello" none
      ⟨⟨some 1, none, .queued, some 0, none, none, none, false, 0, 0, none⟩,
       [], [2], 0⟩).2.chat.started_at = some 50 := by
  have h := c7_requester_activation 50 1 "hello" none
    ⟨⟨some 1, none, .queued, some 0, none, none, none, false, 0, 0, none⟩,
     [], [2], 0⟩ rfl rfl (Or.inl rfl) (by decide)
  exact ⟨h.1, h.2.1, h.2.2.2.1 rfl rfl, h.2.2.2.2 rfl rfl⟩

/-- C3 counterexample: a second end request for an already-`completed` chat
that has no associated `UpcomingSession` is answered with the
cannot-be-ended error response (HTTP 400 in the source), not with the
already-ended outcome the claim demands; the state is untouched. -/
theorem c3_chat_only_second_end_errors :
    endSession 1000 1
      ⟨none,
       some ⟨some 1, some 2, .completed, some 0, some 0, some 60, some 0, true, 1, 1,
         some 60⟩,
       some ⟨5⟩⟩ =
      (.errCannotEnd .completed,
       ⟨none,
        some ⟨some 1, some 2, .completed, some 0, some 0, some 60, some 0, true, 1, 1,
          some 60⟩,
        some ⟨5⟩⟩) := by
  decide

/-- C3 (amended): when an `UpcomingSession` exists and is already completed,
a repeated `end_session` returns the already-ended outcome with the stored
end time and changes nothing (hence no second debit); ending a not-yet-ended
session and calling again likewise returns `already_ended` with the first
call's end time and leaves the first call's state intact; but when only a
chat exists (no associated session) and its status is terminal, the repeated
call is answered with a cannot-be-ended error (still with no debit and no
state change) rather than the already-ended outcome. -/
theorem c3_end_session_idempotent (now now' actor : Nat) (st : EndState) :
    (∀ s t, st.upcoming = some s → s.session_status = "completed" →
      s.actual_end_time = some t →
      endSession now actor st = (.alreadyEnded t (durationSeconds s), st)) ∧
    (∀ c, st.upcoming = none → st.chat = some c →
      (c.user = some actor ∨ (c.counsellor.isSome ∧ c.counsellor = some actor)) →
      c.counsellor ≠ none → c.status ≠ .active → c.status ≠ .inactive →
      endSession now actor st = (.errCannotEnd c.status, st)) ∧
    (∀ s, st.upcoming = some s →
      ¬(s.actual_end_time.isSome = true ∧ s.session_status = "completed") →
      ∃ s', (endSession now actor st).2.upcoming = some s' ∧
        s'.actual_end_time = some now ∧
        endSession now' actor (endSession now actor st).2 =
          (.alreadyEnded now (durationSeconds s'), (endSession now actor st).2)) := by
  obtain ⟨up, ch, pr⟩ := st
  refine ⟨?_, ?_, ?_⟩
  · intro s t hup hstat hend
    simp only at hup
    subst hup
    simp only [endSession]
    rw [if_pos ⟨by simp [hend], hstat⟩]
    simp [hend]
  · intro c hup hch hacc hcns hna hni
    simp only at hup hch
    subst hup
    subst hch
    simp only [endSession]
    rw [if_neg (not_not_intro hacc), if_neg hcns, if_neg ?hno]
    case hno =>
      rintro (h | h)
      · exact hna h
      · exact hni h
  · intro s hup hne
    simp only at hup
    subst hup
    have h1 : endSession now actor ⟨some s, ch, pr⟩ =
        (.endedSession now
          (sessionEndBilling now
            { s with actual_end_time := some now, session_status := "completed",
                     is_confirmed := false,
                     actual_start_time := some (s.actual_start_time.getD now) }
            ch pr).1,
         ⟨some { s with actual_end_time := some now, session_status := "completed",
                        is_confirmed := false,
                        actual_start_time := some (s.actual_start_time.getD now) },
          (sessionEndBilling now
            { s with actual_end_time := some now, session_status := "completed",
                     is_confirmed := false,
                     actual_start_time := some (s.actual_start_time.getD now) }
            ch pr).2.1,
          (sessionEndBilling now
            { s with actual_end_time := some now, session_status := "completed",
                     is_confirmed := false,
                     actual_start_time := some (s.actual_start_time.getD now) }
            ch pr).2.2⟩) := by
      simp only [endSession]
      rw [if_neg hne]
    rw [h1]
    refine ⟨_, rfl, rfl, ?_⟩
    simp [endSession]

/-- C3 witness: both idempotent branches applied at concrete inputs — an
already-completed session returns `already_ended` with its stored end time
and unchanged state, and a terminal chat without a session returns the
cannot-be-ended error with unchanged state. -/
theorem c3_end_session_idempotent_witness :
    endSession 500 1
      ⟨some ⟨some 1, some 2, "completed", some 0, some 300, false⟩, none, some ⟨5⟩⟩ =
      (.alreadyEnded 300
        (durationSeconds ⟨some 1, some 2, "completed", some 0, some 300, false⟩),
       ⟨some ⟨some 1, some 2, "completed", some 0, some 300, false⟩, none, some ⟨5⟩⟩) ∧
    endSession 800 1
      ⟨none,
       some ⟨some 1, some 2, .cancelled, some 0, none, none, none, false, 0, 0, none⟩,
       some ⟨5⟩⟩ =
      (.errCannotEnd .cancelled,
       ⟨none,
        some ⟨some 1, some 2, .cancelled, some 0, none, none, none, false, 0, 0, none⟩,
        some ⟨5⟩⟩) :=
  ⟨(c3_end_session_idempotent 500 500 1
      ⟨some ⟨some 1, some 2, "completed", some 0, some 300, false⟩, none, some ⟨5⟩⟩).1
      ⟨some 1, some 2, "completed", some 0, some 300, false⟩ 300 rfl rfl rfl,
   (c3_end_session_idempotent 800 800 1
      ⟨none,
       some ⟨some 1, some 2, .cancelled, some 0, none, none, none, false, 0, 0, none⟩,
       some ⟨5⟩⟩).2.1
      ⟨some 1, some 2, .cancelled, some 0, none, none, none, false, 0, 0, none⟩
      rfl rfl (Or.inl rfl) (by decide) (by decide) (by decide)⟩

end Soul
